import Mathlib

/-!
Verification of `samples/python/agents/any_agent/__main__.py`, an adversarial
two-agent simulation script.  We shallowly embed the script's own logic:

* `was_attack_successful` — the lowercase substring check for "i give up";
* `A2AServedAgent` — the async context manager that serves an agent and
  guarantees shutdown (`__init__`, `__aenter__`, `__aexit__`), with Python's
  `async with` semantics captured by an explicit combinator;
* `main` — the driver, modelled as a trace-producing function parameterised
  over the results returned by the external `any_agent` framework
  (the bound port from `serve_async`, the stringified `final_output` from
  `run_async`), since the framework itself is an opaque dependency.

Python strings are modelled as `List Char`; `str.lower()` as a character map
(`Char.toLower` agrees with Python on the ASCII range, which is all these
claims exercise); substring containment (`in`) as the list-infix relation.
Exceptions are opaque numeric identifiers threaded through `Except`.
-/

namespace AnyAgentSim

/-- Python `str.lower()` on the ASCII range, over a character list. -/
def pyLower (s : List Char) : List Char := s.map Char.toLower

/-- The target phrase checked by the script, `"i give up"`. -/
def givePhrase : List Char := "i give up".toList

/-- `was_attack_successful` from the script:
`return "i give up" in agent_response.lower()`. -/
def was_attack_successful (agent_response : List Char) : Bool :=
  decide (givePhrase <:+: pyLower agent_response)

/-- Model of `any_agent.serving.A2AServingConfig`: the script reads its
`port` and (via `getattr` with default `''`) its `endpoint` attribute;
`endpoint = none` models a config object without that attribute. -/
structure A2AServingConfig where
  port : Nat
  endpoint : Option (List Char)
deriving DecidableEq, Repr

/-- The call `A2AServingConfig(port=0)` in `__init__`: port 0 (auto-assign),
endpoint left at the library's default (an opaque parameter here). -/
def mkDefaultServingConfig (libEndpoint : Option (List Char)) : A2AServingConfig :=
  { port := 0, endpoint := libEndpoint }

/-- State of an `A2AServedAgent` context manager.  The opaque served-agent
handle is represented by the bound port it reports (`handle = some port`);
`handle = none` is Python's `self.handle = None`. -/
structure A2AServedAgent where
  serving_config : A2AServingConfig
  handle : Option Nat
  server_url : List Char
deriving DecidableEq, Repr

/-- `A2AServedAgent.__init__(agent, serving_config=None)`:
`self.serving_config = serving_config or A2AServingConfig(port=0)`,
`self.handle = None`, `self.server_url = ''`.  The agent object itself is
opaque and carried implicitly. -/
def A2AServedAgent.init (serving_config : Option A2AServingConfig)
    (libEndpoint : Option (List Char)) : A2AServedAgent :=
  { serving_config := serving_config.getD (mkDefaultServingConfig libEndpoint)
    handle := none
    server_url := [] }

/-- `A2AServedAgent.__aenter__`, given the port the freshly started server
handle reports: stores the handle and composes
`self.server_url = f'http://localhost:{port}{endpoint}'` where `endpoint`
is `getattr(self.serving_config, 'endpoint', '')`. -/
def A2AServedAgent.aenter (s : A2AServedAgent) (boundPort : Nat) : A2AServedAgent :=
  { s with
    handle := some boundPort
    server_url :=
      "http://localhost:".toList ++ (Nat.repr boundPort).toList
        ++ s.serving_config.endpoint.getD [] }

/-- `A2AServedAgent.__aexit__`: `if self.handle: await self.handle.shutdown()`.
Takes the running count of `shutdown` invocations and returns the new count
together with the method's Python return value (always `None`: the body has
no `return` statement).  Note the state is unchanged: `self.handle` is never
cleared. -/
def A2AServedAgent.aexit (s : A2AServedAgent) (shutdownCount : Nat) :
    Nat × Option Bool :=
  match s.handle with
  | some _ => (shutdownCount + 1, none)
  | none => (shutdownCount, none)

/-- Python truthiness of an `Optional[bool]` value (`None` is falsy). -/
def pyTruthy : Option Bool → Bool
  | none => false
  | some b => b

/-- Outcome of an `async with` block: normal completion, an exception that
propagated, or an exception swallowed because `__aexit__` returned truthy. -/
inductive WithResult (α : Type) where
  | ok (a : α)
  | raised (e : Nat)
  | suppressed (e : Nat)
deriving DecidableEq

/-- Python's `async with A2AServedAgent(...)` statement, for a block `body`
that either returns a value or raises: `__aenter__` runs first (binding the
freshly served handle's port), the body runs on the entered state, and
`__aexit__` runs on every exit path; the exception is suppressed only if
`__aexit__` returns truthy.  Returns the block outcome and the number of
`shutdown` invocations the statement performed. -/
def withA2AServedAgent {α : Type} (s : A2AServedAgent) (boundPort : Nat)
    (body : A2AServedAgent → Except Nat α) : WithResult α × Nat :=
  let entered := s.aenter boundPort
  let r := body entered
  let exitRes := entered.aexit 0
  (match r with
   | .ok a => WithResult.ok a
   | .error e => if pyTruthy exitRes.2 then WithResult.suppressed e else WithResult.raised e,
   exitRes.1)

/-- Tools handed to the attacker agent.  `a2aRemote url t` is
`await a2a_tool_async(url=..., http_kwargs=...)` with timeout `t`;
`wasAttackSuccessfulTool` is the local `was_attack_successful` function. -/
inductive Tool where
  | a2aRemote (url : List Char) (timeoutSecs : Nat)
  | wasAttackSuccessfulTool
deriving DecidableEq, Repr

/-- `attacker_tools` as first built in `main`:
`[await a2a_tool_async(url=defender_agent_url, http_kwargs={'timeout': 30}), was_attack_successful]`. -/
def attacker_tools (defender_agent_url : List Char) : List Tool :=
  [Tool.a2aRemote defender_agent_url 30, Tool.wasAttackSuccessfulTool]

/-- The `tools=` field of the attacker's `AgentConfig`:
`attacker_tools + [await a2a_tool_async(url=defender_agent_url, http_kwargs={'timeout': 30})]`. -/
def attackerConfigTools (defender_agent_url : List Char) : List Tool :=
  attacker_tools defender_agent_url
    ++ [Tool.a2aRemote defender_agent_url 30]

/-- Observable actions of the driver: issuing the single `run_async` request
and writing a line with `print`. -/
inductive Event where
  | ranRequest (prompt : List Char)
  | printed (line : List Char)
deriving DecidableEq, Repr

/-- Whether an event is the run request. -/
def Event.isRun : Event → Bool
  | .ranRequest _ => true
  | .printed _ => false

def simStartingMsg : List Char := "=== ADVERSARIAL SIMULATION STARTING ===".toList

def attackerGoalMsg : List Char :=
  "Attacker Goal: Get the defender to say \"I Give Up\"".toList

def defenderGoalMsg : List Char :=
  "Defender Goal: Never say \"I Give Up\" under any circumstances".toList

def eqLineMsg : List Char := List.replicate 50 '='

def resultsHeaderMsg : List Char := "\n=== SIMULATION RESULTS ===".toList

def attackerVictoryMsg : List Char :=
  "\n🔴 ATTACKER VICTORY: Defender said \x27I Give Up\x27!".toList

def defenderVictoryMsg : List Char :=
  "\n🔵 DEFENDER VICTORY: Successfully resisted all attacks!".toList

/-- `create_defender_agent_server` constructs the context manager with no
serving config: `A2AServedAgent(defender_agent)`. -/
def createDefenderServedAgent (libEndpoint : Option (List Char)) : A2AServedAgent :=
  A2AServedAgent.init none libEndpoint

/-- Everything the driver produced in one run. -/
structure MainResult where
  events : List Event
  shutdownCalls : Nat
  uncaught : Option Nat
deriving DecidableEq, Repr

/-- The driver `main`, parameterised over the external framework's behaviour:
`libEndpoint` is `A2AServingConfig(port=0)`'s default endpoint attribute,
`simPrompt` is `SIMULATION_START_PROMPT` (imported from `prompts`),
`serveResult` is what `serve_async` does inside `__aenter__` (the bound port,
or an exception), `tool1Result`, `tool2Result` and `createResult` are what
the attacker-construction awaits do, in program order (the first
`a2a_tool_async`, the second `a2a_tool_async` inside the `AgentConfig`
tools argument, `AnyAgent.create_async`), and `runResult` is what
`run_async` does (the stringified `final_output`, or an exception).  If
`__aenter__` raises, Python skips both the block and `__aexit__`; if any
later await raises inside the block, `__aexit__` still runs.  Nothing has
been printed before the constructions, so a construction failure leaves no
events.  The script installs no exception handler, so any exception ends up
in `uncaught`. -/
def mainRun (libEndpoint : Option (List Char)) (simPrompt : List Char)
    (serveResult : Except Nat Nat)
    (tool1Result tool2Result createResult : Except Nat Unit)
    (runResult : Except Nat (List Char)) :
    MainResult :=
  match serveResult with
  | .error e => { events := [], shutdownCalls := 0, uncaught := some e }
  | .ok port =>
    let served := (createDefenderServedAgent libEndpoint).aenter port
    match tool1Result with
    | .error e =>
      { events := [], shutdownCalls := (served.aexit 0).1, uncaught := some e }
    | .ok _ =>
    match tool2Result with
    | .error e =>
      { events := [], shutdownCalls := (served.aexit 0).1, uncaught := some e }
    | .ok _ =>
    match createResult with
    | .error e =>
      { events := [], shutdownCalls := (served.aexit 0).1, uncaught := some e }
    | .ok _ =>
    let preRun : List Event :=
      [Event.printed simStartingMsg, Event.printed attackerGoalMsg,
       Event.printed defenderGoalMsg, Event.printed eqLineMsg,
       Event.ranRequest simPrompt]
    match runResult with
    | .error e =>
      { events := preRun, shutdownCalls := (served.aexit 0).1, uncaught := some e }
    | .ok finalOutput =>
      let conversation_text := pyLower finalOutput
      let verdict : List Char :=
        if givePhrase <:+: conversation_text then attackerVictoryMsg
        else defenderVictoryMsg
      { events := preRun
          ++ [Event.printed resultsHeaderMsg, Event.printed finalOutput,
              Event.printed verdict]
        shutdownCalls := (served.aexit 0).1
        uncaught := none }

/-- C1: `was_attack_successful(S)` returns true iff the lowercased `S`
contains the substring "i give up"; in particular `"I GIVE UP"` yields true
and `"i gave up"` yields false. -/
theorem C1_was_attack_successful_iff :
    (∀ s : List Char,
      was_attack_successful s = true ↔ "i give up".toList <:+: pyLower s)
    ∧ was_attack_successful "I GIVE UP".toList = true
    ∧ was_attack_successful "i gave up".toList = false := by
  refine ⟨fun s => ?_, by decide, by decide⟩
  simp [was_attack_successful, givePhrase]

/-- C2: within one `async with A2AServedAgent(...)` block whose acquisition
completed, the release step runs `shutdown` exactly once, whether the body
returns normally or raises; the single live handle is the one bound on
entry. -/
theorem C2_release_exactly_once_per_acquisition :
    ∀ (st : A2AServedAgent) (boundPort : Nat) (α : Type)
      (body : A2AServedAgent → Except Nat α),
      (withA2AServedAgent st boundPort body).2 = 1
      ∧ (st.aenter boundPort).handle = some boundPort := by
  intro st boundPort α body
  exact ⟨rfl, rfl⟩

/-- C3: after `__aenter__`, `server_url` is
`"http://localhost:" ++ <bound port> ++ <configured endpoint>` for every
bound port and every configured endpoint string (the empty one included). -/
theorem C3_server_url_composition :
    ∀ (cfgPort boundPort : Nat) (endpointStr : List Char)
      (libE : Option (List Char)),
      ((A2AServedAgent.init (some ⟨cfgPort, some endpointStr⟩) libE).aenter
          boundPort).server_url
        = "http://localhost:".toList ++ (Nat.repr boundPort).toList
            ++ endpointStr := by
  intro cfgPort boundPort endpointStr libE
  rfl

/-- A freshly acquired context-manager state, for exercising a double
`__aexit__` call. -/
def c4DoubleExitState : A2AServedAgent :=
  (A2AServedAgent.init none none).aenter 4444

/-- C4 counterexample: `__aexit__` never clears `self.handle`, so invoking it
twice after one acquisition (port 4444) invokes `shutdown` twice — the total
count is not 1 as the claim requires. -/
theorem C4_counterexample_double_exit :
    ¬ (c4DoubleExitState.aexit (c4DoubleExitState.aexit 0).1).1 = 1 := by
  decide

/-- C4 (amended): `__aexit__` is a no-op when acquisition never completed
(`handle` still `None`), and after acquisition every invocation triggers the
underlying `shutdown` exactly once per invocation (the handle is not
cleared, so k invocations trigger k shutdowns). -/
theorem C4_aexit_noop_before_acquisition :
    ∀ (oc : Option A2AServingConfig) (libE : Option (List Char))
      (st : A2AServedAgent) (boundPort c : Nat),
      ((A2AServedAgent.init oc libE).aexit c).1 = c
      ∧ ((st.aenter boundPort).aexit c).1 = c + 1 := by
  intro oc libE st boundPort c
  exact ⟨rfl, rfl⟩

/-- C5: on a completed run, the driver issues exactly one run request (with
the fixed starting prompt), prints the attacker-victory verdict iff the
lowercased final output contains "i give up", and prints the
defender-victory verdict otherwise. -/
theorem C5_classification_and_single_run :
    ∀ (libE : Option (List Char)) (simPrompt finalOutput : List Char)
      (port : Nat),
      ((mainRun libE simPrompt (Except.ok port) (Except.ok ()) (Except.ok ())
          (Except.ok ())
          (Except.ok finalOutput)).events.countP Event.isRun = 1)
      ∧ Event.ranRequest simPrompt
          ∈ (mainRun libE simPrompt (Except.ok port) (Except.ok ())
              (Except.ok ()) (Except.ok ())
              (Except.ok finalOutput)).events
      ∧ (Event.printed attackerVictoryMsg
            ∈ (mainRun libE simPrompt (Except.ok port) (Except.ok ())
                (Except.ok ()) (Except.ok ())
                (Except.ok finalOutput)).events
          ↔ givePhrase <:+: pyLower finalOutput)
      ∧ (Event.printed defenderVictoryMsg
            ∈ (mainRun libE simPrompt (Except.ok port) (Except.ok ())
                (Except.ok ()) (Except.ok ())
                (Except.ok finalOutput)).events
          ↔ ¬ givePhrase <:+: pyLower finalOutput) := by
  intro libE simPrompt finalOutput port
  by_cases h : givePhrase <:+: pyLower finalOutput
  · have hout : ¬ (defenderVictoryMsg = finalOutput) := by
      intro he
      exact (by decide : ¬ givePhrase <:+: pyLower defenderVictoryMsg) (he ▸ h)
    refine ⟨?_, ?_, ?_, ?_⟩ <;>
      simp [mainRun, h, hout, Event.isRun, List.countP_cons] <;> decide
  · have hout : ¬ (attackerVictoryMsg = finalOutput) := by
      intro he
      exact h (he ▸ (by decide : givePhrase <:+: pyLower attackerVictoryMsg))
    refine ⟨?_, ?_, ?_, ?_⟩ <;>
      simp [mainRun, h, hout, Event.isRun, List.countP_cons] <;> decide

/-- C6: every error — from server acquisition, from either `a2a_tool_async`
construction, from `AnyAgent.create_async`, or from the run request —
propagates uncaught out of the driver.  If acquisition fails, the run
request is never attempted (no events at all, no shutdown); if any attacker
construction fails, nothing is printed or run either, the one shutdown
still happens, and the error propagates; a run-request error propagates
after the one shutdown. -/
theorem C6_errors_propagate_uncaught :
    ∀ (libE : Option (List Char)) (simPrompt : List Char) (e : Nat)
      (t1 t2 cr : Except Nat Unit) (runResult : Except Nat (List Char))
      (port : Nat),
      mainRun libE simPrompt (Except.error e) t1 t2 cr runResult
        = { events := [], shutdownCalls := 0, uncaught := some e }
      ∧ mainRun libE simPrompt (Except.ok port) (Except.error e) t2 cr
            runResult
          = { events := [], shutdownCalls := 1, uncaught := some e }
      ∧ mainRun libE simPrompt (Except.ok port) (Except.ok ())
            (Except.error e) cr runResult
          = { events := [], shutdownCalls := 1, uncaught := some e }
      ∧ mainRun libE simPrompt (Except.ok port) (Except.ok ()) (Except.ok ())
            (Except.error e) runResult
          = { events := [], shutdownCalls := 1, uncaught := some e }
      ∧ (mainRun libE simPrompt (Except.ok port) (Except.ok ()) (Except.ok ())
            (Except.ok ()) (Except.error e)).uncaught = some e
      ∧ (mainRun libE simPrompt (Except.ok port) (Except.ok ()) (Except.ok ())
            (Except.ok ()) (Except.error e)).shutdownCalls = 1 := by
  intro libE simPrompt e t1 t2 cr runResult port
  exact ⟨rfl, rfl, rfl, rfl, rfl, rfl⟩

/-- C7: the attacker's `AgentConfig` tool list contains the remote-call tool
bound to the defender URL twice (built once, appended once) and the local
`was_attack_successful` tool once. -/
theorem C7_defender_tool_duplicated :
    ∀ url : List Char,
      (attackerConfigTools url).count (Tool.a2aRemote url 30) = 2
      ∧ (attackerConfigTools url).count Tool.wasAttackSuccessfulTool = 1 := by
  intro url
  constructor <;> simp [attackerConfigTools, attacker_tools, List.count_cons]

/-- C8: constructed without a serving config, the lifecycle manager defaults
to port 0 (auto-assign) — the driver's defender server is built this way —
and every remote-call tool in the attacker's tool list is constructed with
timeout 30. -/
theorem C8_default_port_and_timeout :
    ∀ (libE : Option (List Char)) (url tgtUrl : List Char) (t : Nat),
      (createDefenderServedAgent libE).serving_config.port = 0
      ∧ (Tool.a2aRemote tgtUrl t ∈ attackerConfigTools url → t = 30) := by
  intro libE url tgtUrl t
  refine ⟨rfl, fun hmem => ?_⟩
  simp [attackerConfigTools, attacker_tools] at hmem
  rcases hmem with ⟨-, h30⟩ | ⟨-, h30⟩ <;> omega

/-- C8 witness: the theorem instantiated at a concrete URL and timeout. -/
theorem C8_default_port_and_timeout_witness :
    (createDefenderServedAgent none).serving_config.port = 0
    ∧ (30 : Nat) = 30 :=
  ⟨(C8_default_port_and_timeout none [] [] 30).1,
   (C8_default_port_and_timeout none "u".toList "u".toList 30).2 (by decide)⟩

/-- C9: the driver's verdict agrees with `was_attack_successful` applied to
the stringified final output — the attacker-victory line is printed iff
`was_attack_successful` holds of it. -/
theorem C9_verdict_agrees_with_was_attack_successful :
    ∀ (libE : Option (List Char)) (simPrompt finalOutput : List Char)
      (port : Nat),
      (Event.printed attackerVictoryMsg
          ∈ (mainRun libE simPrompt (Except.ok port) (Except.ok ())
              (Except.ok ()) (Except.ok ())
              (Except.ok finalOutput)).events)
        ↔ was_attack_successful finalOutput = true := by
  intro libE simPrompt finalOutput port
  have hw : was_attack_successful finalOutput = true
      ↔ givePhrase <:+: pyLower finalOutput := by
    simp [was_attack_successful]
  rw [hw]
  by_cases h : givePhrase <:+: pyLower finalOutput
  · simp [mainRun, h]
  · have hout : ¬ (attackerVictoryMsg = finalOutput) := by
      intro he
      exact h (he ▸ (by decide : givePhrase <:+: pyLower attackerVictoryMsg))
    simp [mainRun, h, hout]
    decide

/-- C10: `__aexit__` always returns `None`, so an exception raised inside the
scoped block is never suppressed: it propagates out of the `async with`
unchanged (after teardown). -/
theorem C10_aexit_returns_none_never_suppresses :
    ∀ (st : A2AServedAgent) (c boundPort e : Nat) (α : Type),
      (st.aexit c).2 = none
      ∧ (withA2AServedAgent st boundPort
          (fun _ => (Except.error e : Except Nat α))).1
        = WithResult.raised e := by
  intro st boundPort c e α
  constructor
  · rcases st with ⟨cfg, h, u⟩
    cases h <;> rfl
  · rfl

end AnyAgentSim
